import Mathlib

/-!
Verification development for the multi-label image classification
inference/evaluation pipeline (ModelEvaluator, dataset utilities and the
inference driver).  Python code is shallowly embedded: tensors become lists
of real numbers, a data loader becomes the list of batches it yields (a
DataLoader with the default drop_last=False partitions the underlying
dataset into consecutive batches, so the dataset is the concatenation of
the batches in iteration order), the model and the external collaborators
that are not part of the four embedded source files are passed as explicit
function parameters, and side effects (logging, TensorBoard output) that do
not influence returned values are dropped.
-/

namespace MLIC

/-- Configuration object (src.config.config): the fields consulted by the
embedded code. -/
structure Config where
  model_name : String
  model_requires_grad : Bool
  num_classes : Nat
  model_weights : String
  image_size : Nat
  batch_size : Nat
  dataset_path : String
deriving DecidableEq

/-- A pandas DataFrame as produced by pd.read_csv on the label table: a
header row of column names followed by data rows. -/
structure DataFrame where
  columns : List String
  rows : List (List String)
deriving DecidableEq

/-- One batch yielded by a data loader: the dict with keys image and label.
The image tensor of shape (n, ...) is a list of n images of an abstract
image type, the label tensor of shape (n, C) a list of n label rows. -/
structure Batch (α : Type) where
  image : List α
  label : List (List ℝ)

/-- The logistic sigmoid used by BCEWithLogitsLoss and by threshold
binarization. -/
noncomputable def sigmoid (x : ℝ) : ℝ := 1 / (1 + Real.exp (-x))

/-- Elementwise binary cross entropy with logits:
-(y * log s(x) + (1 - y) * log (1 - s(x))). -/
noncomputable def bceWithLogits (x y : ℝ) : ℝ :=
  -(y * Real.log (sigmoid x) + (1 - y) * Real.log (1 - sigmoid x))

/-- Sum of the elementwise BCE losses over all entries of an output matrix
paired with a label matrix. -/
noncomputable def bceElems (outputs labels : List (List ℝ)) : ℝ :=
  ((outputs.zip labels).map fun p =>
    ((p.1.zip p.2).map fun q => bceWithLogits q.1 q.2).sum).sum

/-- Total number of scalar entries of a matrix. -/
def numel (m : List (List ℝ)) : ℕ := (m.map List.length).sum

/-- The criterion nn.BCEWithLogitsLoss() with the default reduction, mean: the sum of the
elementwise losses divided by the number of elements.  This is the
criterion ModelEvaluator.from_file installs. -/
noncomputable def bceWithLogitsLossMean (outputs labels : List (List ℝ)) : ℝ :=
  bceElems outputs labels / (numel outputs : ℝ)

/-- The value len(data_loader.dataset): with drop_last=False the batches of the loader
partition the dataset, so its size is the sum of the batch sizes. -/
def datasetSize {α : Type} (loader : List (Batch α)) : ℕ :=
  (loader.map fun b => b.image.length).sum

/-- The samples of the data source in iteration order. -/
def samplesOf {α : Type} (loader : List (Batch α)) : List α :=
  (loader.map fun b => b.image).flatten

/-- The true label rows of the data source in iteration order. -/
def labelRowsOf {α : Type} (loader : List (Batch α)) : List (List ℝ) :=
  (loader.map fun b => b.label).flatten

/-- A loader is well formed when every batch has as many label rows as
images. -/
def WellFormedLoader {α : Type} (loader : List (Batch α)) : Prop :=
  ∀ b ∈ loader, b.label.length = b.image.length

/-- ModelEvaluator.predict: runs every batch through the model (the model
maps each image of the batch to its row of raw per-class scores),
accumulates criterion(outputs, labels) over the batches into total_loss,
stacks the raw outputs and the labels of all batches, and returns
(prediction_labels, true_labels, total_loss / len(data_loader.dataset)).
Gradient tracking (torch.no_grad) is a side-effect-free detail here. -/
noncomputable def predict {α : Type} (model : α → List ℝ)
    (criterion : List (List ℝ) → List (List ℝ) → ℝ)
    (loader : List (Batch α)) : List (List ℝ) × List (List ℝ) × ℝ :=
  let prediction_labels := loader.map fun b => b.image.map model
  let true_labels := loader.map fun b => b.label
  let total_loss := (loader.map fun b => criterion (b.image.map model) b.label).sum
  (prediction_labels.flatten, true_labels.flatten, total_loss / (datasetSize loader : ℝ))

/-- The average loss the specification describes for predict: a
reduction-sum BCE-with-logits loss accumulated over all batches, divided by
the total sample count of the data source. -/
noncomputable def specSumAvgLoss {α : Type} (model : α → List ℝ)
    (loader : List (Batch α)) : ℝ :=
  (loader.map fun b => bceElems (b.image.map model) b.label).sum /
    (datasetSize loader : ℝ)

/-- Binarization of one raw score at one scalar threshold: sigmoid then
compare to the threshold, yielding 1.0 or 0.0. -/
noncomputable def binarizeOne (threshold : ℝ) (x : ℝ) : ℝ :=
  if threshold ≤ sigmoid x then 1 else 0

/-- Modelled from the spec: utils.metrics.metricutils.getpredictions_with_threshold
is not under src/; per the spec it performs independent per-class
sigmoid-plus-compare-to-threshold binarization, the single scalar threshold
applied uniformly to every class (0.5 when no threshold is configured). -/
noncomputable def getpredictions_with_threshold
    (outputs : List (List ℝ)) (threshold : Option ℝ) : List (List ℝ) :=
  outputs.map fun row => row.map (binarizeOne (threshold.getD (1 / 2)))

/-- True-positive count over paired flattened label/prediction entries. -/
noncomputable def countTP (yt yp : List ℝ) : ℕ :=
  (yt.zip yp).countP fun q => decide (q.1 = 1 ∧ q.2 = 1)

/-- False-positive count. -/
noncomputable def countFP (yt yp : List ℝ) : ℕ :=
  (yt.zip yp).countP fun q => decide (q.1 ≠ 1 ∧ q.2 = 1)

/-- False-negative count. -/
noncomputable def countFN (yt yp : List ℝ) : ℕ :=
  (yt.zip yp).countP fun q => decide (q.1 = 1 ∧ q.2 ≠ 1)

/-- Column j of a label matrix. -/
def column (m : List (List ℝ)) (j : ℕ) : List ℝ :=
  m.map fun row => row.getD j 0

/-- Precision, recall and F1 from pooled counts (real division, with the
zero-division convention value 0). -/
noncomputable def prfOfCounts (tp fp fn : ℕ) : ℝ × ℝ × ℝ :=
  let p : ℝ := (tp : ℝ) / ((tp : ℝ) + (fp : ℝ))
  let r : ℝ := (tp : ℝ) / ((tp : ℝ) + (fn : ℝ))
  (p, r, 2 * p * r / (p + r))

/-- The averaging policies of metricutils.compute_metrics. -/
inductive Average
  | micro
  | macroAvg
  | perClass
deriving DecidableEq

/-- Modelled from the spec: utils.metrics.metricutils.compute_metrics is not
under src/; per the spec and glossary it computes precision/recall/F1 with
micro averaging (pool all counts globally), macro averaging (per class,
then mean) or per-class values.  Scalar modes are returned as singleton
lists so the three policies share one return type. -/
noncomputable def compute_metrics (yTrue yPred : List (List ℝ))
    (average : Average) : List ℝ × List ℝ × List ℝ :=
  match average with
  | .micro =>
    let t := yTrue.flatten
    let p := yPred.flatten
    let m := prfOfCounts (countTP t p) (countFP t p) (countFN t p)
    ([m.1], [m.2.1], [m.2.2])
  | .macroAvg =>
    let c := (yTrue.headD []).length
    let per := (List.range c).map fun j =>
      prfOfCounts (countTP (column yTrue j) (column yPred j))
        (countFP (column yTrue j) (column yPred j))
        (countFN (column yTrue j) (column yPred j))
    ([(per.map fun m => m.1).sum / (c : ℝ)],
     [(per.map fun m => m.2.1).sum / (c : ℝ)],
     [(per.map fun m => m.2.2).sum / (c : ℝ)])
  | .perClass =>
    let c := (yTrue.headD []).length
    let per := (List.range c).map fun j =>
      prfOfCounts (countTP (column yTrue j) (column yPred j))
        (countFP (column yTrue j) (column yPred j))
        (countFN (column yTrue j) (column yPred j))
    (per.map fun m => m.1, per.map fun m => m.2.1, per.map fun m => m.2.2)

/-- ModelEvaluator.evaluate_predictions: binarizes the raw outputs at the
threshold, computes (precision, recall, f1) with the requested averaging,
and returns (f1, precision, recall).  The optional TensorBoard random-batch
image logging only produces side effects and is dropped; the data_loader,
epoch, datasetSubset and metricMode arguments it consumes are kept so the
call shape matches the source. -/
noncomputable def evaluate_predictions {α : Type} (loader : List (Batch α))
    (prediction_outputs true_labels : List (List ℝ)) (epoch : ℕ)
    (datasetSubset : String) (average : Average) (metricMode : Option String)
    (threshold : Option ℝ) : List ℝ × List ℝ × List ℝ :=
  let predictions_binary := getpredictions_with_threshold prediction_outputs threshold
  let m := compute_metrics true_labels predictions_binary average
  (m.2.2, m.1, m.2.1)

/-- ModelEvaluator.evaluate: predict, then evaluate_predictions on its
outputs, returning (avg_loss, f1, precision, recall). -/
noncomputable def evaluate {α : Type} (model : α → List ℝ)
    (criterion : List (List ℝ) → List (List ℝ) → ℝ) (loader : List (Batch α))
    (epoch : ℕ) (datasetSubset : String) (metricMode : Option String)
    (average : Average) (threshold : Option ℝ) :
    ℝ × List ℝ × List ℝ × List ℝ :=
  let r := predict model criterion loader
  let m := evaluate_predictions loader r.1 r.2.1 epoch datasetSubset average
    metricMode threshold
  (r.2.2, m.1, m.2.1, m.2.2)

/-- datasetutils.__get_index_to_tag_mapping: enumerate the label-table
columns after the first (path) column, in file order. -/
def getIndexToTagMapping (csv : DataFrame) : List (ℕ × String) :=
  (csv.columns.drop 1).enum

/-- datasetutils.__get_dataset_csv acting on the module-global dataset_csv
slot: if the slot holds a table return it unchanged, otherwise read the
table from disk (pd.read_csv at the configured dataset path, embedded as
the function disk from configurations to tables).  The returned Bool
records whether a disk read happened in this call. -/
def getDatasetCsv (disk : Config → DataFrame) (slot : Option DataFrame)
    (c : Config) : DataFrame × Option DataFrame × Bool :=
  match slot with
  | some t => (t, some t, false)
  | none => (disk c, some (disk c), true)

/-- The three public entry points of datasetutils. -/
inductive EntryPoint
  | trainValidTest
  | byName
  | tagMappings
deriving DecidableEq

/-- The cache effect every entry point performs: each of
get_train_valid_test_loaders, get_data_loader_by_name and
get_dataset_tag_mappings begins with dataset_csv = __get_dataset_csv(config),
so the table obtained, the new slot and the read flag are the same for all
three. -/
def entryPointCsv (disk : Config → DataFrame) (ep : EntryPoint)
    (slot : Option DataFrame) (c : Config) : DataFrame × Option DataFrame × Bool :=
  match ep with
  | .trainValidTest => getDatasetCsv disk slot c
  | .byName => getDatasetCsv disk slot c
  | .tagMappings => getDatasetCsv disk slot c

/-- Run a sequence of entry-point calls against the cache slot, collecting
for each call the table it obtained and whether it read the disk. -/
def runCalls (disk : Config → DataFrame) (slot : Option DataFrame) :
    List (EntryPoint × Config) → Option DataFrame × List (DataFrame × Bool)
  | [] => (slot, [])
  | (ep, c) :: rest =>
    let r := entryPointCsv disk ep slot c
    let rr := runCalls disk r.2.1 rest
    (rr.1, (r.1, r.2.2) :: rr.2)

/-- A model checkpoint on disk: serialized parameters plus the recorded
training epoch count. -/
structure Checkpoint (M : Type) where
  modelState : M
  epochs : ℕ

/-- The ModelEvaluator object: the fields __init__ stores. -/
structure Evaluator (M D W : Type) where
  model : M
  criterion : List (List ℝ) → List (List ℝ) → ℝ
  device : D
  config : Config
  num_classes : ℕ
  tensorBoardWriter : Option W
  epochs : Option ℕ

/-- ModelEvaluator.__init__. -/
def Evaluator.init {M D W : Type} (model : M)
    (criterion : List (List ℝ) → List (List ℝ) → ℝ) (device : D)
    (tensorBoardWriter : Option W) (config : Config) (epochs : Option ℕ) :
    Evaluator M D W :=
  { model := model, criterion := criterion, device := device,
    config := config, num_classes := config.num_classes,
    tensorBoardWriter := tensorBoardWriter, epochs := epochs }

/-- ModelEvaluator.from_file.  The collaborators that are not under src/
are parameters: createModel is modelfactory.create_model(model_name,
requires_grad, num_classes, weights) (modelled from the spec: constructs a
model of the configured architecture), getModelToLoadPath is
pathutils.get_model_to_load_path (modelled from the spec: resolves the
checkpoint path deterministically from configuration), fs is the
filesystem (os.path.exists plus the checkpoint contents at a path), and
loadModel is modelloadingutils.load_model (modelled from the spec:
deserializes checkpoint parameters into the freshly constructed model and
yields the recorded epoch count).  The source overwrites the thisconfig
parameter with the module-global config before any use (line
thisconfig = config). -/
noncomputable def fromFile {M D W : Type}
    (createModel : String → Bool → ℕ → String → M)
    (getModelToLoadPath : Config → String)
    (loadModel : Checkpoint M → M → M × ℕ)
    (fs : String → Option (Checkpoint M))
    (globalConfig : Config) (device : D) (tensorBoardWriter : Option W)
    (thisconfig : Config) : Except String (Evaluator M D W) :=
  let thisconfig := globalConfig
  let model := createModel thisconfig.model_name thisconfig.model_requires_grad
    thisconfig.num_classes thisconfig.model_weights
  let modelToLoadPath := getModelToLoadPath thisconfig
  match fs modelToLoadPath with
  | some ckpt =>
    let r := loadModel ckpt model
    Except.ok (Evaluator.init r.1 bceWithLogitsLossMean device tensorBoardWriter
      thisconfig (some r.2))
  | none =>
    Except.error ("Could not find a model at path: " ++ modelToLoadPath ++
      ". Check to ensure the config/json value for model_name_to_load is correct!")

/-- Python str.lower on a string, character by character. -/
def strLower (s : String) : String := ⟨s.data.map Char.toLower⟩

/-- Python str.endswith on strings, as a suffix test on the character
lists. -/
def strEndsWith (s suffix : String) : Bool := suffix.data.isSuffixOf s.data

/-- inference.main, directory branch: the allow-list filter over the
directory entries, img.lower().endswith((".png", ".jpg", ".jpeg")). -/
def isImageFileExt (s : String) : Bool :=
  strEndsWith (strLower s) ".png" || strEndsWith (strLower s) ".jpg" ||
    strEndsWith (strLower s) ".jpeg"

/-- inference.main, video branch test: lower().endswith((".mp4", ".avi", ".mov")). -/
def isVideoFileExt (s : String) : Bool :=
  strEndsWith (strLower s) ".mp4" || strEndsWith (strLower s) ".avi" ||
    strEndsWith (strLower s) ".mov"

/-- The image files the directory branch of inference.main enumerates from
the directory listing. -/
def listImageFiles (entries : List String) : List String :=
  entries.filter fun img => isImageFileExt img

/-- Number of parameters (self excluded) of ModelEvaluator.predict as
defined in modelevaluator.py: def predict(self, data_loader). -/
def modelEvaluatorPredictParamCount : ℕ := 1

/-- Number of arguments (self excluded) the directory and video branches of
inference.main pass to ModelEvaluator.predict:
modelEvaluator.predict(dataset_loader, False, 0.5). -/
def inferencePredictCallArgCount : ℕ := 3

/-- Outcome of the inference driver dispatch on the input path.  The two
report constructors correspond to branches whose whole body is a single
print call: the driver then returns normally, raising nothing and writing
no output media. -/
inductive DriverOutcome
  | directoryFlow
  | imageFlow
  | videoFlow
  | reportUnsupported (msg : String)
  | reportInvalid (msg : String)
deriving DecidableEq

/-- inference.main dispatch: is_dir, then is_file with the image / video
extension chain, else the unsupported-file print; non-file non-directory
paths reach the final invalid-path print. -/
def mainDispatch (isDir isFile : Bool) (inputPath : String) : DriverOutcome :=
  if isDir then .directoryFlow
  else if isFile then
    if isImageFileExt inputPath then .imageFlow
    else if isVideoFileExt inputPath then .videoFlow
    else .reportUnsupported ("Unsupported file type for input: " ++ inputPath)
  else .reportInvalid ("Invalid input path: " ++ inputPath)

/-- True exactly on the outcomes that print an error message and return
normally (no exception raised, no further work). -/
def reportsErrorAndReturns : DriverOutcome → Bool
  | .reportUnsupported _ => true
  | .reportInvalid _ => true
  | _ => false

/-- True exactly on the outcomes whose branch body contains a save of
output media. -/
def branchWritesOutput : DriverOutcome → Bool
  | .directoryFlow => true
  | .imageFlow => true
  | .videoFlow => true
  | _ => false

/-- Helper: the sigmoid at logit 0 is one half. -/
theorem sigmoid_zero : sigmoid 0 = 1 / 2 := by
  unfold sigmoid
  rw [neg_zero, Real.exp_zero]
  norm_num

/-- Helper: BCE-with-logits at logit 0 with label 1 is log 2, which is
positive. -/
theorem bceWithLogits_zero_one : bceWithLogits 0 1 = Real.log 2 := by
  unfold bceWithLogits
  rw [sigmoid_zero]
  norm_num
  rw [one_div, Real.log_inv]
  ring

/-- Helper: every entry point performs the identical cache-slot update. -/
theorem entryPointCsv_eq (disk : Config → DataFrame) (ep : EntryPoint)
    (slot : Option DataFrame) (c : Config) :
    entryPointCsv disk ep slot c = getDatasetCsv disk slot c := by
  cases ep <;> rfl

/-- Helper: once the slot is populated, any run of entry-point calls keeps
the slot unchanged and every call returns the cached table without a disk
read. -/
theorem runCalls_cached (disk : Config → DataFrame) (t : DataFrame)
    (calls : List (EntryPoint × Config)) :
    (runCalls disk (some t) calls).1 = some t ∧
      ∀ out ∈ (runCalls disk (some t) calls).2, out = (t, false) := by
  induction calls with
  | nil => simp [runCalls]
  | cons hd tl ih =>
    obtain ⟨ep, c⟩ := hd
    refine ⟨?_, ?_⟩
    · show (runCalls disk ((entryPointCsv disk ep (some t) c).2.1) tl).1 = some t
      rw [entryPointCsv_eq]
      exact ih.1
    · intro out hout
      simp only [runCalls, entryPointCsv_eq, getDatasetCsv, List.mem_cons] at hout
      rcases hout with h | h
      · rw [h]
      · exact ih.2 out h

/-- C2: for every data source the score matrix and true-label matrix
returned by predict have row count equal to the total sample count, the
rows are concatenated in the iteration order of the data source (the scores are
the model applied to the samples in order, the labels are the label rows
in order), so row i of the raw scores corresponds to row i of the true
labels. -/
theorem predict_row_alignment {α : Type} (model : α → List ℝ)
    (criterion : List (List ℝ) → List (List ℝ) → ℝ) (loader : List (Batch α))
    (hw : WellFormedLoader loader) :
    (predict model criterion loader).1.length = datasetSize loader ∧
    (predict model criterion loader).2.1.length = datasetSize loader ∧
    (predict model criterion loader).1 = (samplesOf loader).map model ∧
    (predict model criterion loader).2.1 = labelRowsOf loader := by
  refine ⟨?_, ?_, ?_, rfl⟩
  · show ((loader.map fun b => b.image.map model).flatten).length = _
    rw [List.length_flatten, List.map_map]
    unfold datasetSize
    congr 1
    exact List.map_congr_left fun b _ => by simp
  · show ((loader.map fun b => b.label).flatten).length = _
    rw [List.length_flatten, List.map_map]
    unfold datasetSize
    congr 1
    exact List.map_congr_left fun b hb => hw b hb
  · show (loader.map fun b => b.image.map model).flatten =
      ((loader.map fun b => b.image).flatten).map model
    rw [List.map_flatten, List.map_map]
    rfl

/-- C2 witness: the alignment properties at a concrete one-batch loader. -/
theorem predict_row_alignment_witness :
    WellFormedLoader [(⟨[3], [[1]]⟩ : Batch ℕ)] ∧
    ((predict (fun n : ℕ => [(n : ℝ)]) (fun _ _ => 0) [⟨[3], [[1]]⟩]).1.length =
        datasetSize [(⟨[3], [[1]]⟩ : Batch ℕ)] ∧
      (predict (fun n : ℕ => [(n : ℝ)]) (fun _ _ => 0) [⟨[3], [[1]]⟩]).2.1.length =
        datasetSize [(⟨[3], [[1]]⟩ : Batch ℕ)] ∧
      (predict (fun n : ℕ => [(n : ℝ)]) (fun _ _ => 0) [⟨[3], [[1]]⟩]).1 =
        (samplesOf [(⟨[3], [[1]]⟩ : Batch ℕ)]).map (fun n : ℕ => [(n : ℝ)]) ∧
      (predict (fun n : ℕ => [(n : ℝ)]) (fun _ _ => 0) [⟨[3], [[1]]⟩]).2.1 =
        labelRowsOf [(⟨[3], [[1]]⟩ : Batch ℕ)]) := by
  have hw : WellFormedLoader [(⟨[3], [[1]]⟩ : Batch ℕ)] := by
    intro b hb
    rw [List.mem_singleton] at hb
    rw [hb]
    rfl
  exact ⟨hw, predict_row_alignment (fun n : ℕ => [(n : ℝ)]) (fun _ _ => 0) _ hw⟩

/-- C3: evaluate returns (avg_loss, f1, precision, recall) equal to calling
predict on the data source and then evaluate_predictions on the outputs of
predict with the same arguments. -/
theorem evaluate_composition {α : Type} (model : α → List ℝ)
    (criterion : List (List ℝ) → List (List ℝ) → ℝ) (loader : List (Batch α))
    (epoch : ℕ) (datasetSubset : String) (metricMode : Option String)
    (average : Average) (threshold : Option ℝ) :
    evaluate model criterion loader epoch datasetSubset metricMode average threshold =
      ((predict model criterion loader).2.2,
        evaluate_predictions loader (predict model criterion loader).1
          (predict model criterion loader).2.1 epoch datasetSubset average
          metricMode threshold) := rfl

/-- C4: for every loaded label table the index-to-tag mapping has size
C - 1 and holds exactly the pairs (i, name of column i + 1) for
i + 1 < C: every column after the first path column, in file order. -/
theorem tag_mapping_spec (csv : DataFrame) :
    (getIndexToTagMapping csv).length = csv.columns.length - 1 ∧
    ∀ i name, (i, name) ∈ getIndexToTagMapping csv ↔
      i + 1 < csv.columns.length ∧ csv.columns[i + 1]? = some name := by
  constructor
  · rw [getIndexToTagMapping, List.enum_length, List.length_drop]
  · intro i name
    rw [getIndexToTagMapping, List.mk_mem_enum_iff_getElem?, List.getElem?_drop]
    constructor
    · intro h
      rw [Nat.add_comm 1 i] at h
      obtain ⟨hlt, -⟩ := List.getElem?_eq_some.mp h
      exact ⟨hlt, h⟩
    · intro h
      rw [Nat.add_comm 1 i]
      exact h.2

/-- C10: from_file ignores its thisconfig parameter: the parameter is
overwritten with the module-global config before any use, so with device,
writer, global config, collaborators and filesystem fixed, any two
configuration arguments produce identical results. -/
theorem from_file_ignores_thisconfig {M D W : Type}
    (createModel : String → Bool → ℕ → String → M)
    (getModelToLoadPath : Config → String)
    (loadModel : Checkpoint M → M → M × ℕ)
    (fs : String → Option (Checkpoint M))
    (globalConfig : Config) (device : D) (tensorBoardWriter : Option W)
    (c1 c2 : Config) :
    fromFile createModel getModelToLoadPath loadModel fs globalConfig device
        tensorBoardWriter c1 =
      fromFile createModel getModelToLoadPath loadModel fs globalConfig device
        tensorBoardWriter c2 := rfl

/-- C1 (divergence of the code from the documented average loss): for the
evaluator built by from_file, whose criterion is nn.BCEWithLogitsLoss()
with the default mean reduction, the value predict returns as avg_loss is
the sum of per-batch mean losses divided by the sample count, which is not
the reduction-sum loss divided by the sample count the documentation
states: at a one-batch loader with two samples, one class, logit 0 and
label 1 the two differ (log 2 / 2 versus log 2). -/
theorem predict_avg_loss_code_bug :
    (predict (fun _ : Unit => [0]) bceWithLogitsLossMean
        [⟨[(), ()], [[1], [1]]⟩]).2.2 ≠
      specSumAvgLoss (fun _ : Unit => [0]) [⟨[(), ()], [[1], [1]]⟩] := by
  have hlog : 0 < Real.log 2 := Real.log_pos (by norm_num)
  have hL : (predict (fun _ : Unit => [0]) bceWithLogitsLossMean
      [⟨[(), ()], [[1], [1]]⟩]).2.2 = Real.log 2 / 2 := by
    simp [predict, bceWithLogitsLossMean, bceElems, numel, datasetSize,
      bceWithLogits_zero_one]
  have hR : specSumAvgLoss (fun _ : Unit => [0]) [⟨[(), ()], [[1], [1]]⟩] =
      Real.log 2 := by
    simp [specSumAvgLoss, bceElems, datasetSize, bceWithLogits_zero_one]
  rw [hL, hR]
  intro h
  linarith

/-- C5: the first entry-point call with an empty cache slot reads the table
from disk; every subsequent call to any entry point, with any
configuration, returns the identical cached table and performs no disk
read. -/
theorem dataset_cache_idempotent (disk : Config → DataFrame) (ep0 : EntryPoint)
    (c0 : Config) (calls : List (EntryPoint × Config)) :
    (entryPointCsv disk ep0 none c0).2.2 = true ∧
    (entryPointCsv disk ep0 none c0).1 = disk c0 ∧
    ∀ out ∈ (runCalls disk (entryPointCsv disk ep0 none c0).2.1 calls).2,
      out = (disk c0, false) := by
  rw [entryPointCsv_eq]
  exact ⟨rfl, rfl, (runCalls_cached disk (disk c0) calls).2⟩

/-- Concrete disk for the cache witness: the table depends on the
configured dataset path, so a changed configuration would read a different
table if the cache did not intervene. -/
def diskW : Config → DataFrame := fun c => ⟨[c.dataset_path, "cat"], []⟩

/-- A first concrete configuration. -/
def cfgA : Config := ⟨"resnet", true, 2, "v1", 224, 4, "a.csv"⟩

/-- A second, different concrete configuration. -/
def cfgB : Config := ⟨"resnet", true, 2, "v1", 224, 4, "b.csv"⟩

/-- C5 witness: after a first call with cfgA, a tag-mappings call with the
changed configuration cfgB still returns the table read for cfgA, without
a disk read. -/
theorem dataset_cache_idempotent_witness :
    ((runCalls diskW (entryPointCsv diskW .byName none cfgA).2.1
        [(.tagMappings, cfgB)]).2.headD (diskW cfgB, true) ∈
      (runCalls diskW (entryPointCsv diskW .byName none cfgA).2.1
        [(.tagMappings, cfgB)]).2) ∧
    (runCalls diskW (entryPointCsv diskW .byName none cfgA).2.1
        [(.tagMappings, cfgB)]).2.headD (diskW cfgB, true) =
      (diskW cfgA, false) := by
  have hmem : (runCalls diskW (entryPointCsv diskW .byName none cfgA).2.1
      [(.tagMappings, cfgB)]).2.headD (diskW cfgB, true) ∈
      (runCalls diskW (entryPointCsv diskW .byName none cfgA).2.1
        [(.tagMappings, cfgB)]).2 := by
    simp [runCalls, entryPointCsv, getDatasetCsv]
  exact ⟨hmem,
    (dataset_cache_idempotent diskW .byName cfgA [(.tagMappings, cfgB)]).2.2 _ hmem⟩

/-- C6: if the checkpoint path resolved from the (global) configuration
does not exist, from_file fails with an error whose message names the
missing path, returning no evaluator, so no batch can be processed; if the
path exists it returns an evaluator carrying the loaded model and the
epoch count recorded in the checkpoint. -/
theorem from_file_checkpoint_spec {M D W : Type}
    (createModel : String → Bool → ℕ → String → M)
    (getModelToLoadPath : Config → String)
    (loadModel : Checkpoint M → M → M × ℕ)
    (fs : String → Option (Checkpoint M))
    (g : Config) (device : D) (w : Option W) (tc : Config) :
    (fs (getModelToLoadPath g) = none →
      ∃ pre post, fromFile createModel getModelToLoadPath loadModel fs g device w tc =
        Except.error (pre ++ getModelToLoadPath g ++ post)) ∧
    (∀ ckpt, fs (getModelToLoadPath g) = some ckpt →
      ∃ ev, fromFile createModel getModelToLoadPath loadModel fs g device w tc =
          Except.ok ev ∧
        ev.model = (loadModel ckpt (createModel g.model_name g.model_requires_grad
          g.num_classes g.model_weights)).1 ∧
        ev.epochs = some (loadModel ckpt (createModel g.model_name
          g.model_requires_grad g.num_classes g.model_weights)).2) := by
  constructor
  · intro h
    refine ⟨"Could not find a model at path: ",
      ". Check to ensure the config/json value for model_name_to_load is correct!", ?_⟩
    simp only [fromFile, h]
  · intro ckpt h
    refine ⟨Evaluator.init (loadModel ckpt (createModel g.model_name
        g.model_requires_grad g.num_classes g.model_weights)).1
        bceWithLogitsLossMean device w g (some (loadModel ckpt (createModel
        g.model_name g.model_requires_grad g.num_classes g.model_weights)).2),
      ?_, rfl, rfl⟩
    simp only [fromFile, h]

/-- C6 witness: both branches at concrete collaborators — a filesystem
without the checkpoint produces the error naming the path, one with a
checkpoint recording 3 epochs produces an evaluator with epochs 3. -/
theorem from_file_checkpoint_spec_witness :
    ((fun _ : String => (none : Option (Checkpoint ℕ))) ((fun c : Config => c.model_name) cfgA) = none ∧
      ∃ pre post, fromFile (fun _ _ n _ => n) (fun c : Config => c.model_name)
          (fun ck m => (ck.modelState + m, ck.epochs)) (fun _ => none) cfgA () (none : Option Unit) cfgB =
        Except.error (pre ++ (fun c : Config => c.model_name) cfgA ++ post)) ∧
    ((fun _ : String => some (⟨7, 3⟩ : Checkpoint ℕ)) ((fun c : Config => c.model_name) cfgA) = some ⟨7, 3⟩ ∧
      ∃ ev, fromFile (fun _ _ n _ => n) (fun c : Config => c.model_name)
          (fun ck m => (ck.modelState + m, ck.epochs)) (fun _ => some ⟨7, 3⟩) cfgA () (none : Option Unit) cfgB =
          Except.ok ev ∧
        ev.model = ((fun (ck : Checkpoint ℕ) (m : ℕ) => (ck.modelState + m, ck.epochs)) ⟨7, 3⟩
          ((fun _ _ n _ => n) cfgA.model_name cfgA.model_requires_grad cfgA.num_classes cfgA.model_weights)).1 ∧
        ev.epochs = some ((fun (ck : Checkpoint ℕ) (m : ℕ) => (ck.modelState + m, ck.epochs)) ⟨7, 3⟩
          ((fun _ _ n _ => n) cfgA.model_name cfgA.model_requires_grad cfgA.num_classes cfgA.model_weights)).2) := by
  constructor
  · exact ⟨rfl, (from_file_checkpoint_spec (fun _ _ n _ => n) (fun c : Config => c.model_name)
      (fun ck m => (ck.modelState + m, ck.epochs)) (fun _ => none) cfgA () none cfgB).1 rfl⟩
  · exact ⟨rfl, (from_file_checkpoint_spec (fun _ _ n _ => n) (fun c : Config => c.model_name)
      (fun ck m => (ck.modelState + m, ck.epochs)) (fun _ => some ⟨7, 3⟩) cfgA () none cfgB).2 ⟨7, 3⟩ rfl⟩

/-- C7: threshold binarization is monotone — for thresholds t1 ≤ t2 in
[0, 1], a class predicted negative at t1 stays negative at t2 — and the
matrix binarization applies the one scalar threshold independently and
uniformly to every class entry via sigmoid-then-compare. -/
theorem threshold_binarization_monotone (x t1 t2 : ℝ)
    (h0 : 0 ≤ t1) (h12 : t1 ≤ t2) (h1 : t2 ≤ 1)
    (hneg : binarizeOne t1 x = 0) :
    binarizeOne t2 x = 0 ∧
      ∀ outputs t, getpredictions_with_threshold outputs (some t) =
        outputs.map fun row => row.map (binarizeOne t) := by
  constructor
  · unfold binarizeOne at hneg ⊢
    by_cases h : t1 ≤ sigmoid x
    · rw [if_pos h] at hneg
      exact absurd hneg one_ne_zero
    · have h2 : ¬ t2 ≤ sigmoid x := fun hc => h (le_trans h12 hc)
      rw [if_neg h2]
  · intro outputs t
    rfl

/-- C7 witness: the raw score 0 (sigmoid one half) is negative at
threshold 3/5 and stays negative at the larger threshold 7/10. -/
theorem threshold_binarization_monotone_witness :
    ((0 : ℝ) ≤ 3 / 5 ∧ (3 / 5 : ℝ) ≤ 7 / 10 ∧ (7 / 10 : ℝ) ≤ 1 ∧
      binarizeOne (3 / 5) 0 = 0) ∧
    (binarizeOne (7 / 10) 0 = 0 ∧
      ∀ outputs t, getpredictions_with_threshold outputs (some t) =
        outputs.map fun row => row.map (binarizeOne t)) := by
  have hb : binarizeOne (3 / 5) 0 = 0 := by
    unfold binarizeOne
    rw [sigmoid_zero, if_neg (by norm_num : ¬ ((3 / 5 : ℝ) ≤ 1 / 2))]
  exact ⟨⟨by norm_num, by norm_num, by norm_num, hb⟩,
    threshold_binarization_monotone 0 (3 / 5) (7 / 10) (by norm_num)
      (by norm_num) (by norm_num) hb⟩

/-- C8 (divergence): the directory branch enumerates exactly the
allow-listed image files — for a directory holding photo.jpg and notes.txt
only photo.jpg — but it then calls ModelEvaluator.predict with three
arguments (dataset_loader, False, 0.5) although predict accepts exactly
one (data_loader), so the call fails before any prediction or save. -/
theorem inference_directory_code_bug :
    listImageFiles ["photo.jpg", "notes.txt"] = ["photo.jpg"] ∧
    inferencePredictCallArgCount ≠ modelEvaluatorPredictParamCount := by
  exact ⟨by decide, by decide⟩

/-- C9: a file input whose extension is neither an image nor a video
extension, and an input path that is neither a file nor a directory, both
make the driver print an error message and return normally: the outcome
reports the error, raises nothing further and writes no output media. -/
theorem driver_error_paths (p : String)
    (hni : isImageFileExt p = false) (hnv : isVideoFileExt p = false) :
    (mainDispatch false true p =
        .reportUnsupported ("Unsupported file type for input: " ++ p) ∧
      reportsErrorAndReturns (mainDispatch false true p) = true ∧
      branchWritesOutput (mainDispatch false true p) = false) ∧
    ∀ q : String, mainDispatch false false q =
        .reportInvalid ("Invalid input path: " ++ q) ∧
      reportsErrorAndReturns (mainDispatch false false q) = true ∧
      branchWritesOutput (mainDispatch false false q) = false := by
  constructor
  · rw [mainDispatch, if_neg (by simp), if_pos rfl, if_neg (by simp [hni]),
      if_neg (by simp [hnv])]
    exact ⟨rfl, rfl, rfl⟩
  · intro q
    rw [mainDispatch, if_neg (by simp), if_neg (by simp)]
    exact ⟨rfl, rfl, rfl⟩

/-- C9 witness: the unsupported extension .txt at the concrete path
document.txt. -/
theorem driver_error_paths_witness :
    (isImageFileExt "document.txt" = false ∧ isVideoFileExt "document.txt" = false) ∧
    ((mainDispatch false true "document.txt" =
        .reportUnsupported ("Unsupported file type for input: " ++ "document.txt") ∧
      reportsErrorAndReturns (mainDispatch false true "document.txt") = true ∧
      branchWritesOutput (mainDispatch false true "document.txt") = false) ∧
    ∀ q : String, mainDispatch false false q =
        .reportInvalid ("Invalid input path: " ++ q) ∧
      reportsErrorAndReturns (mainDispatch false false q) = true ∧
      branchWritesOutput (mainDispatch false false q) = false) :=
  ⟨⟨by decide, by decide⟩,
    driver_error_paths "document.txt" (by decide) (by decide)⟩

/-- C3 witness: the composition law at a concrete one-batch loader. -/
theorem evaluate_composition_witness :
    evaluate (fun n : ℕ => [(n : ℝ)]) (fun _ _ => 0) [⟨[3], [[1]]⟩] 1 "test"
        none .micro (some (1 / 2)) =
      ((predict (fun n : ℕ => [(n : ℝ)]) (fun _ _ => 0) [⟨[3], [[1]]⟩]).2.2,
        evaluate_predictions [⟨[3], [[1]]⟩]
          (predict (fun n : ℕ => [(n : ℝ)]) (fun _ _ => 0) [⟨[3], [[1]]⟩]).1
          (predict (fun n : ℕ => [(n : ℝ)]) (fun _ _ => 0) [⟨[3], [[1]]⟩]).2.1
          1 "test" .micro none (some (1 / 2))) :=
  evaluate_composition (fun n : ℕ => [(n : ℝ)]) (fun _ _ => 0) [⟨[3], [[1]]⟩]
    1 "test" none .micro (some (1 / 2))

/-- C4 witness: the mapping for the label table with columns path, cat,
dog. -/
theorem tag_mapping_spec_witness :
    (getIndexToTagMapping ⟨["path", "cat", "dog"], []⟩).length =
        (⟨["path", "cat", "dog"], []⟩ : DataFrame).columns.length - 1 ∧
    ∀ i name, (i, name) ∈ getIndexToTagMapping ⟨["path", "cat", "dog"], []⟩ ↔
      i + 1 < (⟨["path", "cat", "dog"], []⟩ : DataFrame).columns.length ∧
        (⟨["path", "cat", "dog"], []⟩ : DataFrame).columns[i + 1]? = some name :=
  tag_mapping_spec ⟨["path", "cat", "dog"], []⟩

/-- C10 witness: two different thisconfig arguments, identical results. -/
theorem from_file_ignores_thisconfig_witness :
    fromFile (fun _ _ n _ => (n : ℕ)) (fun c => c.model_name)
        (fun ck m => (ck.modelState + m, ck.epochs)) (fun _ => none) cfgA ()
        (none : Option Unit) cfgA =
      fromFile (fun _ _ n _ => (n : ℕ)) (fun c => c.model_name)
        (fun ck m => (ck.modelState + m, ck.epochs)) (fun _ => none) cfgA ()
        (none : Option Unit) cfgB :=
  from_file_ignores_thisconfig (fun _ _ n _ => (n : ℕ)) (fun c => c.model_name)
    (fun ck m => (ck.modelState + m, ck.epochs)) (fun _ => none) cfgA ()
    (none : Option Unit) cfgA cfgB

end MLIC
